import Mathlib

/-!
Shallow embedding of the Twilio multi-tenant voice-agent backend
(`utils/auth_utils.py`, `blueprints/auth.py`, `blueprints/tenant.py`).

External collaborators (the Supabase client) are modelled as oracles inside
environment records: each external call site reads one oracle field, and a
call either returns a value (`PResult.ok`) or raises an exception carrying a
message string (`PResult.exn`), matching the Python `try`/`except` structure.
Request handlers become pure functions from the environment and the parsed
request to a response value, paired with the trace of external calls made.
-/

namespace TwilioAgent

/-- Result of one external (Supabase) call: either a returned value or a
raised exception carrying its message string. -/
inductive PResult (α : Type) where
  | ok (val : α)
  | exn (msg : String)
deriving DecidableEq, Repr

/-- Python truthiness test for an optional string field read with
`data.get(key)`: missing (`None`) or the empty string are falsy. -/
def falsyOpt : Option String → Bool
  | none => true
  | some s => s == ""

/-- Does the character list `needle` occur contiguously inside the second
list?  Mirrors Python's `needle in haystack` on strings. -/
def containsList (needle : List Char) : List Char → Bool
  | [] => needle.isEmpty
  | c :: t => needle.isPrefixOf (c :: t) || containsList needle t

/-- Python `sub in s` substring test. -/
def containsSub (s sub : String) : Bool :=
  containsList sub.toList s.toList

/-- Python `s.lower()` restricted to ASCII (all provider messages matched by
the source are ASCII). -/
def lowerStr (s : String) : String :=
  String.mk (s.toList.map Char.toLower)

/-- Python `', '.join(xs)` (used by `require_role`'s 403 message). -/
def joinStr (sep : String) : List String → String
  | [] => ""
  | [x] => x
  | x :: y :: t => x ++ sep ++ joinStr sep (y :: t)

/-- Python `s.startswith(pre)`. -/
def startsWithStr (s pre : String) : Bool :=
  pre.toList.isPrefixOf s.toList

/-- Python `s.split(' ')` on character lists: split at every single space,
keeping empty segments. -/
def splitChar : List Char → List (List Char)
  | [] => [[]]
  | c :: cs =>
    let r := splitChar cs
    if c = ' ' then [] :: r
    else
      match r with
      | [] => [[c]]
      | w :: ws => (c :: w) :: ws

/-- Python `s.split(' ')`. -/
def py_split_space (s : String) : List String :=
  (splitChar s.toList).map (fun cs => String.mk cs)

/-- One row of the `tenant_users` table as selected by
`get_tenant_from_user` (`select('tenant_id, role')`). -/
structure MembershipRow where
  tenant_id : String
  role : String
deriving DecidableEq, Repr

/-- Oracle environment for the auth guards (`utils/auth_utils.py`):
whether the Supabase client is configured, the behaviour of
`supabase.auth.get_user(token)` (returning the user id when a user is
attached to the response), and the behaviour of the
`tenant_users` select keyed by the `user_id` value passed to `.eq`. -/
structure GuardEnv where
  configured : Bool
  get_user : String → PResult (Option String)
  tenant_users : Option String → PResult (List MembershipRow)

/-- `verify_token` (auth_utils.py lines 13-31): returns the
`(user_id, error)` pair exactly as the Python function does. -/
def verify_token (env : GuardEnv) (token : String) :
    Option String × Option String :=
  if env.configured = false then (none, some "Supabase not configured")
  else
    match env.get_user token with
    | .exn e => (none, some e)
    | .ok none => (none, some "Invalid token")
    | .ok (some uid) => (some uid, none)

/-- `get_tenant_from_user` (auth_utils.py lines 34-56): returns the
`(tenant_id, role, error)` triple exactly as the Python function does. -/
def get_tenant_from_user (env : GuardEnv) (user_id : Option String) :
    Option String × Option String × Option String :=
  if env.configured = false then (none, none, some "Supabase not configured")
  else
    match env.tenant_users user_id with
    | .exn e => (none, none, some e)
    | .ok [] => (none, none, some "User not associated with any tenant")
    | .ok (tenant_info :: _) =>
      (some tenant_info.tenant_id, some tenant_info.role, none)

/-- One internal call made by a guard, recorded in the order the guard
performs it. -/
inductive GuardCall where
  | verifyToken (token : String)
  | resolveMembership (user_id : Option String)
deriving DecidableEq, Repr

/-- What a guard does with the request: an early HTTP response (with the
`error` body field), or running the wrapped handler with the keyword
arguments the decorator injects. -/
inductive GuardOutcome where
  | response (status : Nat) (error : String)
  | handler (user_id tenant_id role : Option String)
deriving DecidableEq, Repr

/-- Token extraction shared verbatim by the three decorators: `None` when
the `Authorization` header is absent or does not start with `"Bearer "`,
otherwise `auth_header.split(' ')[1]`. -/
def bearer_token : Option String → Option String
  | none => none
  | some h =>
    if startsWithStr h "Bearer " then some ((py_split_space h).getD 1 "")
    else none

/-- The `role not in required_roles` test of `require_role`, applied to the
possibly-`None` role value the resolver produced. -/
def role_in (role : Option String) (required_roles : List String) : Bool :=
  match role with
  | some r => required_roles.contains r
  | none => false

/-- `require_tenant` (auth_utils.py lines 83-112), with the list of
internal calls it performed. -/
def require_tenant (env : GuardEnv) (auth_header : Option String) :
    GuardOutcome × List GuardCall :=
  match bearer_token auth_header with
  | none => (.response 401 "Authorization token required", [])
  | some token =>
    match verify_token env token with
    | (_, some error) => (.response 401 error, [.verifyToken token])
    | (user_id, none) =>
      match get_tenant_from_user env user_id with
      | (_, _, some error) =>
        (.response 404 error, [.verifyToken token, .resolveMembership user_id])
      | (tenant_id, role, none) =>
        (.handler user_id tenant_id role,
         [.verifyToken token, .resolveMembership user_id])

/-- `require_role` (auth_utils.py lines 115-151), with the list of internal
calls it performed. -/
def require_role (required_roles : List String) (env : GuardEnv)
    (auth_header : Option String) : GuardOutcome × List GuardCall :=
  match bearer_token auth_header with
  | none => (.response 401 "Authorization token required", [])
  | some token =>
    match verify_token env token with
    | (_, some error) => (.response 401 error, [.verifyToken token])
    | (user_id, none) =>
      match get_tenant_from_user env user_id with
      | (_, _, some error) =>
        (.response 404 error, [.verifyToken token, .resolveMembership user_id])
      | (tenant_id, role, none) =>
        if role_in role required_roles = false then
          (.response 403
            ("Insufficient permissions. Required: " ++ joinStr ", " required_roles),
           [.verifyToken token, .resolveMembership user_id])
        else
          (.handler user_id tenant_id role,
           [.verifyToken token, .resolveMembership user_id])

/-- Outcome of `require_auth` (auth_utils.py lines 59-80), which injects
only `user_id`. -/
inductive AuthOutcome where
  | response (status : Nat) (error : String)
  | handler (user_id : Option String)
deriving DecidableEq, Repr

/-- `require_auth` (auth_utils.py lines 59-80), with the list of internal
calls it performed. -/
def require_auth (env : GuardEnv) (auth_header : Option String) :
    AuthOutcome × List GuardCall :=
  match bearer_token auth_header with
  | none => (.response 401 "Authorization token required", [])
  | some token =>
    match verify_token env token with
    | (_, some error) => (.response 401 error, [.verifyToken token])
    | (user_id, none) => (.handler user_id, [.verifyToken token])

/-- The user object returned by the auth provider on sign-up / sign-in. -/
structure AuthUser where
  id : String
  email : String
deriving DecidableEq, Repr

/-- An auth session returned by the provider. -/
structure Session where
  access_token : String
  refresh_token : String
  expires_at : Nat
deriving DecidableEq, Repr

/-- The provider response of `supabase.auth.sign_up` /
`sign_in_with_password`: an optional user and an optional session. -/
structure AuthResponse where
  user : Option AuthUser
  session : Option Session
deriving DecidableEq, Repr

/-- Oracle environment for the signup endpoint (`blueprints/auth.py`):
one field per external call site, in source order.
`rpc_create_tenant` carries the truthy `rpc_response.data` as
`some tenant_id` (`none` for a falsy/absent result);
`tenants_insert` carries the `id` fields of the inserted rows. -/
structure SignupEnv where
  configured : Bool
  sign_up : PResult AuthResponse
  rpc_create_tenant : PResult (Option String)
  tenants_insert : PResult (List String)
  tenant_users_insert : PResult (List Unit)
  agent_config_insert : PResult Unit

/-- Parsed signup request body fields read by the handler (only those the
claims depend on; a missing key reads as `none`). -/
structure SignupData where
  email : Option String
  password : Option String
  company_name : Option String
deriving DecidableEq, Repr

/-- The fields of a signup JSON response the claims talk about: HTTP
status, the `error` field, and on success the `user`, `tenant` and
`session` payload fields (`none` models JSON `null`/absent). -/
structure SignupResponse where
  status : Nat
  error : Option String
  user_id : Option String
  user_email : Option String
  tenant_id : Option String
  tenant_name : Option String
  tenant_role : Option String
  access_token : Option String
  refresh_token : Option String
deriving DecidableEq, Repr

/-- An error response: a status and an `error` body field, with no
success payload. -/
def errResp (status : Nat) (error : String) : SignupResponse :=
  ⟨status, some error, none, none, none, none, none, none, none⟩

/-- One external call made by the signup handler, in the order the source
performs them. -/
inductive ExtCall where
  | signUp
  | rpcCreateTenant
  | tenantsInsert
  | tenantUsersInsert
  | agentConfigInsert
deriving DecidableEq, Repr

/-- Fallback path of signup step 2 (auth.py lines 123-153): the direct
`tenants` insert run when the RPC raised or returned no data; a raised
insert exception is caught by the outer `except` and classified there. -/
def signup_step2_fallback (env : SignupEnv) :
    (String ⊕ SignupResponse) × List ExtCall :=
  match env.tenants_insert with
  | .ok [] =>
    (Sum.inr (errResp 500 "Failed to create tenant"),
     [.rpcCreateTenant, .tenantsInsert])
  | .ok (tid :: _) => (Sum.inl tid, [.rpcCreateTenant, .tenantsInsert])
  | .exn e =>
    if containsSub (lowerStr e) "row-level security" || containsSub e "42501" then
      (Sum.inr (errResp 500 "Failed to create tenant"),
       [.rpcCreateTenant, .tenantsInsert])
    else
      (Sum.inr (errResp 500 ("Failed to create tenant: " ++ e)),
       [.rpcCreateTenant, .tenantsInsert])

/-- Signup step 2 (auth.py lines 106-153): try the `create_tenant` RPC;
on a raised RPC call or falsy RPC data (the source re-raises
"RPC function returned no data") fall back to the direct insert.
Returns the tenant id or the error response to send. -/
def signup_step2 (env : SignupEnv) :
    (String ⊕ SignupResponse) × List ExtCall :=
  match env.rpc_create_tenant with
  | .ok (some tid) => (Sum.inl tid, [.rpcCreateTenant])
  | .ok none => signup_step2_fallback env
  | .exn _ => signup_step2_fallback env

/-- The signup handler (auth.py lines 20-206): field validation, then the
four orchestration steps, paired with the trace of external calls made. -/
def signup (env : SignupEnv) (data : SignupData) :
    SignupResponse × List ExtCall :=
  if falsyOpt data.email || falsyOpt data.password then
    (errResp 400 "Email and password are required", [])
  else if falsyOpt data.company_name then
    (errResp 400 "Company name is required", [])
  else if env.configured = false then
    (errResp 500 "Supabase not configured", [])
  else
    match env.sign_up with
    | .exn e =>
      let error_msg := lowerStr e
      if containsSub error_msg "already registered" ||
          containsSub error_msg "user already registered" then
        (errResp 400 "Email already registered", [.signUp])
      else if containsSub error_msg "rate limit" ||
          containsSub error_msg "rate_limit" then
        (errResp 429 "Email rate limit exceeded", [.signUp])
      else if containsSub error_msg "invalid" && containsSub error_msg "email" then
        (errResp 400 "Invalid email address", [.signUp])
      else if containsSub error_msg "password" &&
          (containsSub error_msg "weak" || containsSub error_msg "short") then
        (errResp 400 "Password too weak", [.signUp])
      else
        (errResp 400 "Authentication error", [.signUp])
    | .ok auth_response =>
      match auth_response.user with
      | none => (errResp 400 "Failed to create user", [.signUp])
      | some u =>
        match signup_step2 env with
        | (Sum.inr resp, calls2) => (resp, .signUp :: calls2)
        | (Sum.inl tenant_id, calls2) =>
          match env.tenant_users_insert with
          | .exn e =>
            (errResp 500 ("Failed to create tenant user: " ++ e),
             .signUp :: calls2 ++ [.tenantUsersInsert])
          | .ok [] =>
            (errResp 500 "Failed to link user to tenant",
             .signUp :: calls2 ++ [.tenantUsersInsert])
          | .ok (_ :: _) =>
            (⟨201, none, some u.id, data.email, some tenant_id,
               data.company_name, some "owner",
               Option.map Session.access_token auth_response.session,
               Option.map Session.refresh_token auth_response.session⟩,
             .signUp :: calls2 ++ [.tenantUsersInsert, .agentConfigInsert])

/-- Oracle environment for signin (auth.py lines 209-288): whether the
client is configured and the behaviour of
`supabase.auth.sign_in_with_password`. -/
structure SigninEnv where
  configured : Bool
  sign_in_with_password : PResult AuthResponse

/-- Parsed signin request body fields. -/
structure SigninData where
  email : Option String
  password : Option String
deriving DecidableEq, Repr

/-- Where the signin handler stands after validation and the credential
check: an HTTP response already decided, or proceeding to membership
lookup with the authenticated user and session. -/
inductive SigninStep1 where
  | response (status : Nat) (error : String)
  | proceed (user : AuthUser) (session : Option Session)
deriving DecidableEq, Repr

/-- Signin through the credential check (auth.py lines 223-250):
validation, the configured check, then `sign_in_with_password` with the
source's `except` classification of raised provider errors. -/
def signin_step1 (env : SigninEnv) (data : SigninData) : SigninStep1 :=
  if falsyOpt data.email || falsyOpt data.password then
    .response 400 "Email and password are required"
  else if env.configured = false then
    .response 500 "Supabase not configured"
  else
    match env.sign_in_with_password with
    | .exn e =>
      if containsSub (lowerStr e) "invalid" || containsSub (lowerStr e) "credentials" then
        .response 401 "Invalid email or password"
      else
        .response 401 ("Authentication error: " ++ e)
    | .ok auth_response =>
      match auth_response.user with
      | none => .response 401 "Invalid credentials"
      | some u => .proceed u auth_response.session

/-- `allowed_fields` of `update_tenant_profile` (tenant.py line 59). -/
def profile_allowed_fields : List String :=
  ["name", "timezone", "industry", "default_email_recipients"]

/-- `allowed_fields` of `update_agent_config` (tenant.py lines 106-110). -/
def agent_config_allowed_fields : List String :=
  ["greeting", "tone", "business_hours", "escalation_rules",
   "allowed_actions", "custom_prompts", "store_transcripts",
   "store_recordings", "retention_days"]

/-- What a PUT handler does after filtering the body: answer 400 without
touching the store, or send exactly `payload` to the store's `update`. -/
inductive UpdateOutcome (V : Type) where
  | earlyResponse (status : Nat) (error : String)
  | storeUpdate (payload : List (String × V))
deriving DecidableEq, Repr

/-- Body filtering and the empty-update check of `update_tenant_profile`
(tenant.py lines 47-66): the JSON object is a list of key/value pairs,
values of arbitrary type `V`. -/
def update_tenant_profile {V : Type} (data : List (String × V)) :
    UpdateOutcome V :=
  let update_data := data.filter (fun kv => profile_allowed_fields.contains kv.1)
  if update_data.isEmpty then .earlyResponse 400 "No valid fields to update"
  else .storeUpdate update_data

/-- Body filtering and the empty-update check of `update_agent_config`
(tenant.py lines 94-120). -/
def update_agent_config {V : Type} (data : List (String × V)) :
    UpdateOutcome V :=
  let update_data :=
    data.filter (fun kv => agent_config_allowed_fields.contains kv.1)
  if update_data.isEmpty then .earlyResponse 400 "No valid fields to update"
  else .storeUpdate update_data

/-- C1: for every request to a RoleRequired(allowedRoles) endpoint (a
well-formed bearer header), the guard runs the Token Verifier, then the
Membership Resolver, then the role check, in that order: a
token-verification failure returns HTTP 401 (without consulting the
resolver); a membership-resolution failure returns HTTP 404; a resolved
role outside `allowedRoles` returns HTTP 403 with the list of required
roles in the message; otherwise the handler runs with
`(userId, tenantId, role)` injected. -/
theorem require_role_pipeline (env : GuardEnv) (required_roles : List String)
    (header : Option String) (token : String)
    (hh : bearer_token header = some token) :
    (∀ e, verify_token env token = (none, some e) →
      require_role required_roles env header =
        (.response 401 e, [.verifyToken token])) ∧
    (∀ uid, verify_token env token = (some uid, none) →
      (∀ e, get_tenant_from_user env (some uid) = (none, none, some e) →
        require_role required_roles env header =
          (.response 404 e,
           [.verifyToken token, .resolveMembership (some uid)])) ∧
      (∀ tid r, get_tenant_from_user env (some uid) = (some tid, some r, none) →
        (required_roles.contains r = false →
          require_role required_roles env header =
            (.response 403
               ("Insufficient permissions. Required: " ++
                 joinStr ", " required_roles),
             [.verifyToken token, .resolveMembership (some uid)])) ∧
        (required_roles.contains r = true →
          require_role required_roles env header =
            (.handler (some uid) (some tid) (some r),
             [.verifyToken token, .resolveMembership (some uid)])))) := by
  refine ⟨fun e hv => ?_,
          fun uid hv => ⟨fun e hm => ?_, fun tid r hm => ⟨fun hr => ?_, fun hr => ?_⟩⟩⟩
  · simp [require_role, hh, hv]
  · simp [require_role, hh, hv, hm]
  · have hr2 : role_in (some r) required_roles = false := hr
    simp [require_role, hh, hv, hm, hr2]
  · have hr2 : role_in (some r) required_roles = true := hr
    simp [require_role, hh, hv, hm, hr2]

/-- Concrete guard environment for the C1 witness: a valid token resolving
to a user whose only membership has role `viewer`. -/
def envC1 : GuardEnv :=
  ⟨true, fun _ => .ok (some "user-1"), fun _ => .ok [⟨"tenant-1", "viewer"⟩]⟩

/-- Witness for C1: a `viewer` hitting a RoleRequired(["owner","admin"])
endpoint gets HTTP 403 listing "owner, admin". -/
theorem require_role_pipeline_witness :
    require_role ["owner", "admin"] envC1 (some "Bearer tok") =
      (.response 403
         ("Insufficient permissions. Required: " ++ joinStr ", " ["owner", "admin"]),
       [.verifyToken "tok", .resolveMembership (some "user-1")]) :=
  (((require_role_pipeline envC1 ["owner", "admin"] (some "Bearer tok") "tok"
      rfl).2 "user-1" rfl).2 "tenant-1" "viewer" rfl).1 (by decide)

/-- C2: a signup request missing (or giving an empty) email, password or
company name gets HTTP 400 with an empty external-call trace: no external
collaborator is invoked. -/
theorem signup_validation_fail_fast (env : SignupEnv) (data : SignupData)
    (hv : falsyOpt data.email = true ∨ falsyOpt data.password = true ∨
      falsyOpt data.company_name = true) :
    (signup env data).1.status = 400 ∧ (signup env data).2 = [] := by
  rcases hv with h | h | h
  · simp [signup, h, errResp]
  · simp [signup, h, errResp]
  · cases hb : (falsyOpt data.email || falsyOpt data.password) <;>
      simp [signup, hb, h, errResp]

/-- A poisoned signup environment: every external call would raise, so any
invocation would be visible in the result; used by the C2 witness. -/
def envC2 : SignupEnv :=
  ⟨true, .exn "called", .exn "called", .exn "called", .exn "called", .exn "called"⟩

/-- Witness for C2: signup without `company_name` returns 400 and performs
no external call. -/
theorem signup_validation_fail_fast_witness :
    (signup envC2 ⟨some "a@b.c", some "pw", none⟩).1.status = 400 ∧
    (signup envC2 ⟨some "a@b.c", some "pw", none⟩).2 = [] :=
  signup_validation_fail_fast envC2 ⟨some "a@b.c", some "pw", none⟩
    (Or.inr (Or.inr rfl))

/-- C7: membership resolution with zero directory rows fails with the
no-tenant error; with one or more rows it returns exactly the first row's
tenant id and role, whatever the later rows are. -/
theorem membership_first_row_selection (env : GuardEnv)
    (user_id : Option String) (hc : env.configured = true) :
    (env.tenant_users user_id = .ok [] →
      get_tenant_from_user env user_id =
        (none, none, some "User not associated with any tenant")) ∧
    (∀ row rest, env.tenant_users user_id = .ok (row :: rest) →
      get_tenant_from_user env user_id =
        (some row.tenant_id, some row.role, none)) := by
  constructor
  · intro h; simp [get_tenant_from_user, hc, h]
  · intro row rest h; simp [get_tenant_from_user, hc, h]

/-- Concrete guard environment for the C7 witness: a user holding two
memberships. -/
def envC7 : GuardEnv :=
  ⟨true, fun _ => .ok (some "user-7"),
   fun _ => .ok [⟨"t1", "owner"⟩, ⟨"t2", "viewer"⟩]⟩

/-- Witness for C7: with rows `[(t1, owner), (t2, viewer)]` the resolver
returns `(t1, owner)` and ignores the second row. -/
theorem membership_first_row_selection_witness :
    get_tenant_from_user envC7 (some "user-7") =
      (some "t1", some "owner", none) :=
  (membership_first_row_selection envC7 (some "user-7") rfl).2
    ⟨"t1", "owner"⟩ [⟨"t2", "viewer"⟩] rfl

/-- Guard environment for C9: the provider rejects every token. -/
def envC9 : GuardEnv := ⟨true, fun _ => .ok none, fun _ => .ok []⟩

/-- Counterexample to C9 as stated: the header "Bearer " (trailing space,
no token) is not of the form "Bearer &lt;token&gt;", yet the middleware does
not reject it before the Token Verifier runs — the verifier is invoked
with the empty string as its token argument. -/
theorem bearer_empty_token_cex :
    bearer_token (some "Bearer ") = some "" ∧
    require_tenant envC9 (some "Bearer ") =
      (.response 401 "Invalid token", [.verifyToken ""]) :=
  ⟨rfl, rfl⟩

/-- C9 (amended): an absent Authorization header, or one not starting with
"Bearer ", is rejected with HTTP 401 before the Token Verifier is invoked;
when the header does start with "Bearer ", the verifier is invoked first,
with the second space-separated segment of the header as its token — a
string that may be empty (e.g. for the header "Bearer "). -/
theorem bearer_header_guard (env : GuardEnv) (h : String) :
    (require_tenant env none =
      (.response 401 "Authorization token required", [])) ∧
    (startsWithStr h "Bearer " = false →
      require_tenant env (some h) =
        (.response 401 "Authorization token required", [])) ∧
    (startsWithStr h "Bearer " = true →
      (require_tenant env (some h)).2.head? =
        some (.verifyToken ((py_split_space h).getD 1 ""))) := by
  refine ⟨rfl, fun hs => ?_, fun hs => ?_⟩
  · simp [require_tenant, bearer_token, hs]
  · have hb : bearer_token (some h) = some ((py_split_space h).getD 1 "") := by
      simp [bearer_token, hs]
    generalize hT : (py_split_space h).getD 1 "" = t at hb ⊢
    rcases hvt : verify_token env t with ⟨uo, eo⟩
    cases eo
    · rcases hm : get_tenant_from_user env uo with ⟨a, b, c⟩
      cases c <;> simp [require_tenant, hb, hvt, hm]
    · simp [require_tenant, hb, hvt]

/-- Witness for the amended C9: a missing header and a non-Bearer header
are rejected early; a well-formed header reaches the verifier first. -/
theorem bearer_header_guard_witness :
    require_tenant envC9 none =
      (.response 401 "Authorization token required", []) ∧
    require_tenant envC9 (some "Token abc") =
      (.response 401 "Authorization token required", []) ∧
    (require_tenant envC9 (some "Bearer abc")).2.head? =
      some (.verifyToken "abc") :=
  ⟨(bearer_header_guard envC9 "Token abc").1,
   (bearer_header_guard envC9 "Token abc").2.1 (by decide),
   (bearer_header_guard envC9 "Bearer abc").2.2 (by decide)⟩

/-- C10: on both PUT endpoints the update sent to the store is exactly the
body filtered to the endpoint's allowed-field list (so it contains only
allowed keys and every other key is silently discarded), and a body with
no allowed key gets HTTP 400 with no store update performed. -/
theorem update_endpoints_allowed_fields {V : Type}
    (data : List (String × V)) :
    (∀ p, update_tenant_profile data = UpdateOutcome.storeUpdate p →
      p = data.filter (fun kv => profile_allowed_fields.contains kv.1) ∧
      ∀ kv ∈ p, profile_allowed_fields.contains kv.1 = true) ∧
    ((∀ kv ∈ data, profile_allowed_fields.contains kv.1 = false) →
      update_tenant_profile data =
        .earlyResponse 400 "No valid fields to update") ∧
    (∀ p, update_agent_config data = UpdateOutcome.storeUpdate p →
      p = data.filter (fun kv => agent_config_allowed_fields.contains kv.1) ∧
      ∀ kv ∈ p, agent_config_allowed_fields.contains kv.1 = true) ∧
    ((∀ kv ∈ data, agent_config_allowed_fields.contains kv.1 = false) →
      update_agent_config data =
        .earlyResponse 400 "No valid fields to update") := by
  refine ⟨fun p hp => ?_, fun hall => ?_, fun p hp => ?_, fun hall => ?_⟩
  · simp only [update_tenant_profile] at hp
    split at hp
    · exact UpdateOutcome.noConfusion hp
    · cases hp
      exact ⟨rfl, fun kv hkv => (List.mem_filter.mp hkv).2⟩
  · have hnil : data.filter (fun kv => profile_allowed_fields.contains kv.1) = [] :=
      List.filter_eq_nil_iff.mpr (fun a ha => by simpa using hall a ha)
    simp only [update_tenant_profile]
    rw [hnil]
    rfl
  · simp only [update_agent_config] at hp
    split at hp
    · exact UpdateOutcome.noConfusion hp
    · cases hp
      exact ⟨rfl, fun kv hkv => (List.mem_filter.mp hkv).2⟩
  · have hnil : data.filter (fun kv => agent_config_allowed_fields.contains kv.1) = [] :=
      List.filter_eq_nil_iff.mpr (fun a ha => by simpa using hall a ha)
    simp only [update_agent_config]
    rw [hnil]
    rfl

/-- Witness for C10: a body with only an unknown key is rejected with 400
by the agent-config endpoint. -/
theorem update_endpoints_allowed_fields_witness :
    update_agent_config [(("hack" : String), (0 : Nat))] =
      UpdateOutcome.earlyResponse 400 "No valid fields to update" :=
  (update_endpoints_allowed_fields [(("hack" : String), (0 : Nat))]).2.2.2
    (by decide)

/-- Signup step 2 reads only the tenant-creation oracles, so two
environments agreeing on them run step 2 identically. -/
theorem signup_step2_env_eq (env env2 : SignupEnv)
    (h3 : env2.rpc_create_tenant = env.rpc_create_tenant)
    (h4 : env2.tenants_insert = env.tenants_insert) :
    signup_step2 env2 = signup_step2 env := by
  unfold signup_step2 signup_step2_fallback
  rw [h3, h4]

/-- C3: when the identity-creation call of signup raises a provider error,
the external-call trace is exactly the one auth call (no tenant, no
membership and no config insert happens), and the response is decided by
the source's classification chain: already-registered messages give
HTTP 400 "Email already registered", rate-limit messages give HTTP 429,
invalid-email messages HTTP 400, weak/short-password messages HTTP 400,
and everything else the generic HTTP 400 authentication error. -/
theorem signup_identity_error_classified (env : SignupEnv) (data : SignupData)
    (e : String)
    (h1 : falsyOpt data.email = false) (h2 : falsyOpt data.password = false)
    (h3 : falsyOpt data.company_name = false) (hc : env.configured = true)
    (he : env.sign_up = .exn e) :
    (signup env data).2 = [ExtCall.signUp] ∧
    signup env data =
      (if containsSub (lowerStr e) "already registered" ||
          containsSub (lowerStr e) "user already registered" then
         (errResp 400 "Email already registered", [ExtCall.signUp])
       else if containsSub (lowerStr e) "rate limit" ||
          containsSub (lowerStr e) "rate_limit" then
         (errResp 429 "Email rate limit exceeded", [ExtCall.signUp])
       else if containsSub (lowerStr e) "invalid" &&
          containsSub (lowerStr e) "email" then
         (errResp 400 "Invalid email address", [ExtCall.signUp])
       else if containsSub (lowerStr e) "password" &&
          (containsSub (lowerStr e) "weak" || containsSub (lowerStr e) "short") then
         (errResp 400 "Password too weak", [ExtCall.signUp])
       else (errResp 400 "Authentication error", [ExtCall.signUp])) := by
  have hred : signup env data =
      (if containsSub (lowerStr e) "already registered" ||
          containsSub (lowerStr e) "user already registered" then
         (errResp 400 "Email already registered", [ExtCall.signUp])
       else if containsSub (lowerStr e) "rate limit" ||
          containsSub (lowerStr e) "rate_limit" then
         (errResp 429 "Email rate limit exceeded", [ExtCall.signUp])
       else if containsSub (lowerStr e) "invalid" &&
          containsSub (lowerStr e) "email" then
         (errResp 400 "Invalid email address", [ExtCall.signUp])
       else if containsSub (lowerStr e) "password" &&
          (containsSub (lowerStr e) "weak" || containsSub (lowerStr e) "short") then
         (errResp 400 "Password too weak", [ExtCall.signUp])
       else (errResp 400 "Authentication error", [ExtCall.signUp])) := by
    simp [signup, h1, h2, h3, hc, he]
  refine ⟨?_, hred⟩
  rw [hred]
  split
  · rfl
  · split
    · rfl
    · split
      · rfl
      · split <;> rfl

/-- Concrete signup environment for the C3 witness: the auth provider
raises "User already registered"; the remaining oracles are poisoned so
any later call would be visible. -/
def envC3 : SignupEnv :=
  ⟨true, .exn "User already registered", .exn "called", .exn "called",
   .exn "called", .exn "called"⟩

/-- Witness for C3: signup with an already-registered email returns
HTTP 400 with error "Email already registered", no other external call. -/
theorem signup_identity_error_classified_witness :
    signup envC3 ⟨some "a@b.c", some "pw", some "Acme"⟩ =
      (errResp 400 "Email already registered", [ExtCall.signUp]) :=
  ((signup_identity_error_classified envC3 ⟨some "a@b.c", some "pw", some "Acme"⟩
      "User already registered" rfl rfl rfl rfl rfl).2).trans (by decide)

/-- C4: once signup reaches step 4, the agent-config insert cannot change
the outcome: signup returns HTTP 201 with no error, and any environment
differing only in the agent-config-insert oracle produces the identical
result. -/
theorem signup_config_step_nonfatal (env env2 : SignupEnv) (data : SignupData)
    (resp : AuthResponse) (u : AuthUser) (tid : String) (calls2 : List ExtCall)
    (rest : List Unit)
    (h1 : falsyOpt data.email = false) (h2 : falsyOpt data.password = false)
    (h3 : falsyOpt data.company_name = false) (hc : env.configured = true)
    (hs : env.sign_up = .ok resp) (hu : resp.user = some u)
    (hstep2 : signup_step2 env = (Sum.inl tid, calls2))
    (hlink : env.tenant_users_insert = .ok (() :: rest))
    (e1 : env2.configured = env.configured)
    (e2 : env2.sign_up = env.sign_up)
    (e3 : env2.rpc_create_tenant = env.rpc_create_tenant)
    (e4 : env2.tenants_insert = env.tenants_insert)
    (e5 : env2.tenant_users_insert = env.tenant_users_insert) :
    (signup env data).1.status = 201 ∧ (signup env data).1.error = none ∧
    signup env2 data = signup env data := by
  have hstep2b : signup_step2 env2 = (Sum.inl tid, calls2) :=
    (signup_step2_env_eq env env2 e3 e4).trans hstep2
  have hm1 : signup env data =
      (⟨201, none, some u.id, data.email, some tid, data.company_name,
         some "owner", Option.map Session.access_token resp.session,
         Option.map Session.refresh_token resp.session⟩,
       ExtCall.signUp :: calls2 ++
         [ExtCall.tenantUsersInsert, ExtCall.agentConfigInsert]) := by
    simp [signup, h1, h2, h3, hc, hs, hu, hstep2, hlink]
  have hm2 : signup env2 data =
      (⟨201, none, some u.id, data.email, some tid, data.company_name,
         some "owner", Option.map Session.access_token resp.session,
         Option.map Session.refresh_token resp.session⟩,
       ExtCall.signUp :: calls2 ++
         [ExtCall.tenantUsersInsert, ExtCall.agentConfigInsert]) := by
    simp [signup, h1, h2, h3, e1.trans hc, e2.trans hs, hu, hstep2b,
          e5.trans hlink]
  exact ⟨by rw [hm1], by rw [hm1], hm2.trans hm1.symm⟩

/-- Signup environment for the C4 witness: all four steps succeed. -/
def envC4 : SignupEnv :=
  ⟨true, .ok ⟨some ⟨"uid-1", "a@b.c"⟩, some ⟨"acc", "ref", 99⟩⟩,
   .ok (some "tid-1"), .ok [], .ok [()], .ok ()⟩

/-- The same environment with the agent-config insert raising. -/
def envC4fail : SignupEnv :=
  ⟨true, .ok ⟨some ⟨"uid-1", "a@b.c"⟩, some ⟨"acc", "ref", 99⟩⟩,
   .ok (some "tid-1"), .ok [], .ok [()], .exn "config insert blew up"⟩

/-- Witness for C4: with a failing config insert, signup still returns 201
with no error, and the result is identical to the all-success run. -/
theorem signup_config_step_nonfatal_witness :
    (signup envC4 ⟨some "a@b.c", some "pw", some "Acme"⟩).1.status = 201 ∧
    (signup envC4 ⟨some "a@b.c", some "pw", some "Acme"⟩).1.error = none ∧
    signup envC4fail ⟨some "a@b.c", some "pw", some "Acme"⟩ =
      signup envC4 ⟨some "a@b.c", some "pw", some "Acme"⟩ :=
  signup_config_step_nonfatal envC4 envC4fail
    ⟨some "a@b.c", some "pw", some "Acme"⟩
    ⟨some ⟨"uid-1", "a@b.c"⟩, some ⟨"acc", "ref", 99⟩⟩ ⟨"uid-1", "a@b.c"⟩
    "tid-1" [ExtCall.rpcCreateTenant] []
    rfl rfl rfl rfl rfl rfl rfl rfl rfl rfl rfl rfl rfl

/-- C5: a successful signup response carries HTTP 201 with `user.id` from
the created identity, `user.email` from the request, the created tenant's
id, the requested company name, role "owner", and the provider session's
access and refresh tokens — both `null` when the provider issued no
session. -/
theorem signup_success_payload (env : SignupEnv) (data : SignupData)
    (resp : AuthResponse) (u : AuthUser) (tid : String) (calls2 : List ExtCall)
    (rest : List Unit)
    (h1 : falsyOpt data.email = false) (h2 : falsyOpt data.password = false)
    (h3 : falsyOpt data.company_name = false) (hc : env.configured = true)
    (hs : env.sign_up = .ok resp) (hu : resp.user = some u)
    (hstep2 : signup_step2 env = (Sum.inl tid, calls2))
    (hlink : env.tenant_users_insert = .ok (() :: rest)) :
    (signup env data).1 =
      ⟨201, none, some u.id, data.email, some tid, data.company_name,
        some "owner", Option.map Session.access_token resp.session,
        Option.map Session.refresh_token resp.session⟩ ∧
    (resp.session = none →
      (signup env data).1.access_token = none ∧
      (signup env data).1.refresh_token = none) := by
  have hm1 : (signup env data).1 =
      ⟨201, none, some u.id, data.email, some tid, data.company_name,
        some "owner", Option.map Session.access_token resp.session,
        Option.map Session.refresh_token resp.session⟩ := by
    simp [signup, h1, h2, h3, hc, hs, hu, hstep2, hlink]
  exact ⟨hm1, fun hn => by rw [hm1]; simp [hn]⟩

/-- Signup environment for the C5 witness: identity created but no session
issued (e.g. email confirmation pending); tenant via direct insert. -/
def envC5 : SignupEnv :=
  ⟨true, .ok ⟨some ⟨"uid-9", "o@acme.io"⟩, none⟩, .exn "rpc missing",
   .ok ["tid-9"], .ok [()], .ok ()⟩

/-- Witness for C5: the 201 payload carries user, tenant and owner role,
and both session fields are null because no session was issued. -/
theorem signup_success_payload_witness :
    (signup envC5 ⟨some "o@acme.io", some "pw", some "Acme"⟩).1 =
      ⟨201, none, some "uid-9", some "o@acme.io", some "tid-9", some "Acme",
        some "owner", none, none⟩ ∧
    (signup envC5 ⟨some "o@acme.io", some "pw", some "Acme"⟩).1.access_token = none ∧
    (signup envC5 ⟨some "o@acme.io", some "pw", some "Acme"⟩).1.refresh_token = none := by
  have h := signup_success_payload envC5 ⟨some "o@acme.io", some "pw", some "Acme"⟩
    ⟨some ⟨"uid-9", "o@acme.io"⟩, none⟩ ⟨"uid-9", "o@acme.io"⟩ "tid-9"
    [ExtCall.rpcCreateTenant, ExtCall.tenantsInsert] []
    rfl rfl rfl rfl rfl rfl rfl rfl
  exact ⟨h.1, (h.2 rfl).1, (h.2 rfl).2⟩

/-- Guard environment whose provider raises an exception carrying internal
connection detail, used for C6. -/
def envC6 : GuardEnv :=
  ⟨true,
   fun _ => .exn "connection to 10.0.0.5 refused: password for role postgres rejected",
   fun _ => .ok []⟩

/-- Counterexample to C6 as stated: on a provider exception the 401 body
is the raw exception message — internal connection detail verbatim — not
one of the classified verifier messages. -/
theorem verify_error_leak_cex :
    require_tenant envC6 (some "Bearer tok") =
      (.response 401
         "connection to 10.0.0.5 refused: password for role postgres rejected",
       [.verifyToken "tok"]) ∧
    "connection to 10.0.0.5 refused: password for role postgres rejected" ≠
      "Invalid token" ∧
    "connection to 10.0.0.5 refused: password for role postgres rejected" ≠
      "Supabase not configured" :=
  ⟨rfl, by decide, by decide⟩

/-- C6 (amended): every token-verification failure on a guarded endpoint
returns HTTP 401, and the error body is exactly the error string the
verifier produced — which for provider exceptions is the raw exception
message, so detail beyond the classified messages can appear in it. -/
theorem require_tenant_verify_error_passthrough (env : GuardEnv)
    (header : Option String) (token : String) (e : String)
    (hh : bearer_token header = some token)
    (hv : verify_token env token = (none, some e)) :
    require_tenant env header = (.response 401 e, [.verifyToken token]) := by
  simp [require_tenant, hh, hv]

/-- Witness for the amended C6: the raw provider message comes back as the
401 body. -/
theorem require_tenant_verify_error_passthrough_witness :
    require_tenant envC6 (some "Bearer t1") =
      (.response 401
         "connection to 10.0.0.5 refused: password for role postgres rejected",
       [.verifyToken "t1"]) :=
  require_tenant_verify_error_passthrough envC6 (some "Bearer t1") "t1"
    "connection to 10.0.0.5 refused: password for role postgres rejected"
    rfl rfl

/-- C8: a provider error raised by the signin credential check is
classified by message content: messages containing "invalid" or
"credentials" (case-insensitively) give HTTP 401 with the
invalid-credentials message; every other message gives the generic
HTTP 401 authentication error echoing the provider message. -/
theorem signin_provider_error_classified (env : SigninEnv) (data : SigninData)
    (e : String)
    (h1 : falsyOpt data.email = false) (h2 : falsyOpt data.password = false)
    (hc : env.configured = true)
    (he : env.sign_in_with_password = .exn e) :
    ((containsSub (lowerStr e) "invalid" ||
        containsSub (lowerStr e) "credentials") = true →
      signin_step1 env data = .response 401 "Invalid email or password") ∧
    ((containsSub (lowerStr e) "invalid" ||
        containsSub (lowerStr e) "credentials") = false →
      signin_step1 env data = .response 401 ("Authentication error: " ++ e)) := by
  constructor <;> intro hcase <;> simp [signin_step1, h1, h2, hc, he, hcase]

/-- Signin environment for the C8 witness: the provider raises the usual
"Invalid login credentials" error. -/
def envC8 : SigninEnv := ⟨true, .exn "Invalid login credentials"⟩

/-- Witness for C8: "Invalid login credentials" maps to HTTP 401 with the
invalid-credentials message. -/
theorem signin_provider_error_classified_witness :
    signin_step1 envC8 ⟨some "a@b.c", some "pw"⟩ =
      .response 401 "Invalid email or password" :=
  (signin_provider_error_classified envC8 ⟨some "a@b.c", some "pw"⟩
    "Invalid login credentials" rfl rfl rfl rfl).1 (by decide)

end TwilioAgent
